import Mathlib

/-
Verification development for the NextMeet repository: a shallow embedding of
the room lifecycle manager (RoomsPanel: createRoom / joinRoom / markAsBusy /
cleanupExpiredRooms), the RoomCard join guard and expiration labels, the
video-chat page join path, and the 1:1 peer-session signal handlers of the
VideoChat component (handleMatchFound / handleOffer / handleAnswer /
handleIceCandidate / skipPartner).

Timestamps are modelled as natural numbers of milliseconds.  The persistent
store is modelled as explicit lists of rows; display-only columns (names,
avatar urls, group names) are omitted.  The media transport object
(RTCPeerConnection) is modelled by the small record of facts the client code
depends on: whether local and remote descriptions have been set, which
candidates have been applied (in order), and whether the connection is closed.
-/

namespace NextMeet

/-- Room status column: waiting | active | ended. -/
inductive RoomStatus
  | waiting
  | active
  | ended
deriving DecidableEq, Repr

/-- Participant status column: invited | joined | busy | kicked. -/
inductive PStatus
  | invited
  | joined
  | busy
  | kicked
deriving DecidableEq, Repr

/-- Row of the rooms table (display-only columns omitted).  The password
column is `none` when the room is not password protected. -/
structure Room where
  id : Nat
  password : Option String
  status : RoomStatus
  created_at : Nat
  ended_at : Option Nat
deriving DecidableEq, Repr

/-- Row of the room_participants table. -/
structure Participant where
  room_id : Nat
  user_id : Nat
  pstatus : PStatus
  joined_at : Nat
deriving DecidableEq, Repr

/-- Row of the room_activity table. -/
structure Activity where
  room_id : Nat
  last_active : Nat
  participant_count : Nat
deriving DecidableEq, Repr

/-- The persistent store visible to the room lifecycle code. -/
structure DB where
  rooms : List Room
  participants : List Participant
  activity : List Activity
deriving DecidableEq, Repr

/-- Lookup of a room row by primary key, as done by the joinRoom query
`from(rooms).select().eq(id, roomId).single()`. -/
def findRoomById (db : DB) (roomId : Nat) : Option Room :=
  db.rooms.find? fun r => r.id == roomId

/-- Status of a room row, if the row exists. -/
def roomStatusById (db : DB) (roomId : Nat) : Option RoomStatus :=
  (findRoomById db roomId).map fun r => r.status

/-- Status of a participant row, if the row exists. -/
def participantStatus (db : DB) (roomId userId : Nat) : Option PStatus :=
  (db.participants.find? fun p => p.room_id == roomId && p.user_id == userId).map
    fun p => p.pstatus

/-- Number of participant rows of a room with status joined, as counted by the
sweep query `from(room_participants).select(id).eq(room_id, id).eq(status, joined)`. -/
def roomJoinedCount (db : DB) (roomId : Nat) : Nat :=
  (db.participants.filter fun p => p.room_id == roomId && p.pstatus == PStatus.joined).length

/-- The last_active value used by the sweep: the room_activity row when it
exists, otherwise the creation time of the room (the code falls back to
`new Date(room.created_at)`). -/
def roomLastActive (db : DB) (room : Room) : Nat :=
  match db.activity.find? fun a => a.room_id == room.id with
  | some a => a.last_active
  | none => room.created_at

/-- The condition under which cleanupExpiredRooms ends a room.  The outer
query selects rooms with status in {waiting, active} and created_at strictly
older than ten minutes; the loop body then additionally requires at most one
joined participant and a last_active value strictly older than five minutes.
The source compares `created_at < now - 10*60000` and
`lastActiveTime < now - 5*60000`; over integer timestamps these are the
additive comparisons written here. -/
def roomShouldExpire (db : DB) (now : Nat) (room : Room) : Bool :=
  (room.status == RoomStatus.waiting || room.status == RoomStatus.active)
    && decide (room.created_at + 10 * 60000 < now)
    && decide (roomJoinedCount db room.id ≤ 1)
    && decide (roomLastActive db room + 5 * 60000 < now)

/-- The expiration sweep of RoomsPanel (cleanupExpiredRooms): every room
meeting roomShouldExpire is updated to status ended with ended_at = now; all
other rows are untouched. -/
def cleanupExpiredRooms (db : DB) (now : Nat) : DB :=
  { db with
    rooms := db.rooms.map fun r =>
      if roomShouldExpire db now r then
        { r with status := RoomStatus.ended, ended_at := some now }
      else r }

/-- Expiration label computed by RoomCard (getExpirationStatus), shown next to
a room card.  The first branch fires on age alone, the second on low occupancy
plus idleness, the third as an early warning. -/
inductive ExpirationLabel
  | expiredAge
  | expiredInactive
  | expiresSoon
deriving DecidableEq, Repr

/-- RoomCard getExpirationStatus.  The source computes minutes as float
divisions of millisecond differences; for timestamps with lastActive and
createdAt not after now this is the threshold comparison written here (and
when createdAt is in the future both versions yield no label, since truncated
subtraction gives 0 and the float difference is negative). -/
def getExpirationStatus (now createdAt : Nat) (lastActive : Option Nat)
    (participantCount : Nat) : Option ExpirationLabel :=
  let la := lastActive.getD createdAt
  if 10 * 60000 ≤ now - createdAt then some ExpirationLabel.expiredAge
  else if participantCount ≤ 1 ∧ 5 * 60000 ≤ now - la then some ExpirationLabel.expiredInactive
  else if 8 * 60000 ≤ now - createdAt then some ExpirationLabel.expiresSoon
  else none

/-- Truthiness of the password column as used by `if (room.password && ...)`:
null and the empty string are falsy. -/
def roomPasswordTruthy (pw : Option String) : Bool :=
  match pw with
  | none => false
  | some s => !(s == "")

/-- The guard `room.password && room.password !== password` of RoomsPanel
joinRoom: blocks when the stored password is truthy and differs from the
supplied one. -/
def passwordBlocks (roomPw given : Option String) : Bool :=
  match roomPw with
  | none => false
  | some pw => !(pw == "") && !(given == some pw)

/-- Result surface of RoomsPanel joinRoom: success carries the id of the room
navigated to; the thrown Incorrect-password error is wrongPassword; a failed
single-row lookup is roomNotFound. -/
inductive JoinResult
  | ok (redirectRoomId : Nat)
  | wrongPassword
  | roomNotFound
deriving DecidableEq, Repr

/-- RoomsPanel joinRoom: looks the room up, throws on a password mismatch
before any write, otherwise updates the existing participant row of the caller
to joined and navigates to the room.  The returned store is the store after
the call (unchanged on both failure paths). -/
def joinRoom (db : DB) (roomId userId : Nat) (given : Option String) : JoinResult × DB :=
  match findRoomById db roomId with
  | none => (JoinResult.roomNotFound, db)
  | some room =>
    if passwordBlocks room.password given then (JoinResult.wrongPassword, db)
    else
      (JoinResult.ok room.id,
        { db with
          participants := db.participants.map fun p =>
            if p.room_id == roomId && p.user_id == userId then
              { p with pstatus := PStatus.joined }
            else p })

/-- Outcome of the RoomCard handleJoin click handler. -/
inductive HandleJoinAction
  | blockedNotSignedIn
  | blockedEnded
  | promptPassword
  | callJoin (password : String)
deriving DecidableEq, Repr

/-- RoomCard handleJoin: rejects when not signed in, rejects ended rooms with
an error toast, opens the password modal when the room has a password and the
input is still empty, and otherwise calls joinRoom with the input. -/
def handleJoin (signedIn : Bool) (status : RoomStatus) (roomPw : Option String)
    (pwInput : String) : HandleJoinAction :=
  if !signedIn then HandleJoinAction.blockedNotSignedIn
  else if status == RoomStatus.ended then HandleJoinAction.blockedEnded
  else if roomPasswordTruthy roomPw && pwInput == "" then HandleJoinAction.promptPassword
  else HandleJoinAction.callJoin pwInput

/-- Failure surface of the video-chat page joinRoom. -/
inductive PageJoinError
  | noAccess
deriving DecidableEq, Repr

/-- The video-chat page joinRoom: requires an existing participant row for the
caller, then updates the rooms row to status active unconditionally (the
update has no status precondition), then sets the participant row of the
caller to joined with joined_at = now. -/
def pageJoinRoom (db : DB) (roomId userId now : Nat) : Except PageJoinError DB :=
  match db.participants.find? fun p => p.room_id == roomId && p.user_id == userId with
  | none => Except.error PageJoinError.noAccess
  | some _ =>
    let db1 : DB :=
      { db with
        rooms := db.rooms.map fun r =>
          if r.id == roomId then { r with status := RoomStatus.active } else r }
    Except.ok
      { db1 with
        participants := db1.participants.map fun p =>
          if p.room_id == roomId && p.user_id == userId then
            { p with pstatus := PStatus.joined, joined_at := now }
          else p }

/-- Negotiation failure of the media transport (the rejected promise of a
transport call). -/
inductive NegotiationError
  | invalidState
deriving DecidableEq, Repr

deriving instance DecidableEq for Except

/-- The facts about an RTCPeerConnection that the client code depends on:
which descriptions are set, the applied candidates in order, and whether the
connection has been closed. -/
structure RTCConn where
  localDescSet : Bool
  remoteDescSet : Bool
  appliedCandidates : List Nat
  closed : Bool
deriving DecidableEq, Repr

/-- A freshly constructed RTCPeerConnection, as created in handleMatchFound. -/
def newRTCConn : RTCConn :=
  { localDescSet := false, remoteDescSet := false, appliedCandidates := [], closed := false }

/-- Transport primitive: setRemoteDescription succeeds on any open connection
and records that the remote description is set; it rejects on a closed
connection. -/
def setRemoteDescription (c : RTCConn) : Except NegotiationError RTCConn :=
  if c.closed then Except.error NegotiationError.invalidState
  else Except.ok { c with remoteDescSet := true }

/-- Transport primitive: createAnswer requires an open connection with the
remote description set. -/
def createAnswer (c : RTCConn) : Except NegotiationError Unit :=
  if c.closed || !c.remoteDescSet then Except.error NegotiationError.invalidState
  else Except.ok ()

/-- Transport primitive: setLocalDescription succeeds on any open connection
and records that the local description is set. -/
def setLocalDescription (c : RTCConn) : Except NegotiationError RTCConn :=
  if c.closed then Except.error NegotiationError.invalidState
  else Except.ok { c with localDescSet := true }

/-- Transport primitive: addIceCandidate applies the candidate (appending it
to the applied sequence) when the connection is open and the remote
description is set; it rejects otherwise, which is the standard transport
behaviour for a candidate arriving before the remote description. -/
def addIceCandidate (c : RTCConn) (cand : Nat) : Except NegotiationError RTCConn :=
  if c.closed || !c.remoteDescSet then Except.error NegotiationError.invalidState
  else Except.ok { c with appliedCandidates := c.appliedCandidates ++ [cand] }

/-- Client-side state of the VideoChat component relevant to the 1:1 path:
the current partner id, the peerConnectionRef contents, the matching and
chatting flags, and the chat transcript. -/
structure ClientState where
  partnerId : Option String
  pc : Option RTCConn
  isMatching : Bool
  isChatting : Bool
  messages : List String
deriving DecidableEq, Repr

/-- Messages the client emits on the signaling socket. -/
inductive OutMsg
  | offer (toId : String)
  | answer (toId : String)
  | waitingSignal
deriving DecidableEq, Repr

/-- The initiator test of handleMatchFound: the client creates and sends the
offer exactly when its own connection identifier is lexicographically smaller
than the partner identifier (`socketRef.current?.id < partnerId`). -/
def sendsOffer (selfId partnerId : String) : Bool :=
  decide (selfId < partnerId)

/-- The offer initiator of a matched pair as determined by both sides running
the sendsOffer test: the side that sends, if any. -/
def offerInitiator (a b : String) : Option String :=
  if sendsOffer a b then some a
  else if sendsOffer b a then some b
  else none

/-- VideoChat handleMatchFound: records the partner, leaves matching for
chatting, replaces peerConnectionRef with a fresh connection, and, when the
own socket id is lexicographically smaller than the partner id, creates an
offer, sets it as local description and emits it to the partner.  Local
capture track attachment and the event-handler registrations carry no state
the claims depend on and are omitted. -/
def handleMatchFound (selfId : String) (st : ClientState) (partner : String) :
    ClientState × List OutMsg :=
  let base : ClientState :=
    { st with
      partnerId := some partner, isMatching := false, isChatting := true,
      pc := some newRTCConn }
  if selfId < partner then
    ({ base with pc := some { newRTCConn with localDescSet := true } },
      [OutMsg.offer partner])
  else (base, [])

/-- VideoChat skipPartner: clears the partner id and the transcript and emits
a fresh waiting request.  The WebRTCService helper is torn down, but
peerConnectionRef is not touched (only endChat closes and nulls it). -/
def skipPartner (st : ClientState) : ClientState × List OutMsg :=
  ({ st with partnerId := none, messages := [] }, [OutMsg.waitingSignal])

/-- VideoChat handleOffer: returns silently when peerConnectionRef is null;
otherwise sets the remote description, creates an answer, sets it as local
description and emits the answer to the from field of the message.  No sender
check is made and no failure is caught: a rejected transport call propagates
out of the handler. -/
def handleOffer (st : ClientState) (fromId : String) :
    Except NegotiationError (ClientState × List OutMsg) :=
  match st.pc with
  | none => Except.ok (st, [])
  | some conn =>
    match setRemoteDescription conn with
    | Except.error e => Except.error e
    | Except.ok conn1 =>
      match createAnswer conn1 with
      | Except.error e => Except.error e
      | Except.ok _ =>
        match setLocalDescription conn1 with
        | Except.error e => Except.error e
        | Except.ok conn2 => Except.ok ({ st with pc := some conn2 }, [OutMsg.answer fromId])

/-- VideoChat handleAnswer: applies the answer as remote description of the
current connection (a no-op when peerConnectionRef is null, via optional
chaining).  The sender field of the message is not even read. -/
def handleAnswer (st : ClientState) : Except NegotiationError ClientState :=
  match st.pc with
  | none => Except.ok st
  | some conn =>
    match setRemoteDescription conn with
    | Except.error e => Except.error e
    | Except.ok conn1 => Except.ok { st with pc := some conn1 }

/-- VideoChat handleIceCandidate: passes the candidate directly to
addIceCandidate of the current connection (a no-op when peerConnectionRef is
null, via optional chaining).  The sender field is not read, no buffering
happens, and no failure is caught. -/
def handleIceCandidate (st : ClientState) (cand : Nat) :
    Except NegotiationError ClientState :=
  match st.pc with
  | none => Except.ok st
  | some conn =>
    match addIceCandidate conn cand with
    | Except.error e => Except.error e
    | Except.ok conn1 => Except.ok { st with pc := some conn1 }

/-- State of the ICE candidate buffer as the specification describes it:
candidates arriving before the remote description are kept in arrival order
and applied on flush. -/
structure SpecCandidateBuffer where
  remoteDescApplied : Bool
  buffered : List Nat
  applied : List Nat
deriving DecidableEq, Repr

/-- Modelled from the spec, for comparison with handleIceCandidate: the
addCandidate operation of the ICE Candidate Buffer appends the candidate when
the remote description has not yet been applied and applies it immediately
otherwise. -/
def specAddCandidate (b : SpecCandidateBuffer) (cand : Nat) : SpecCandidateBuffer :=
  if b.remoteDescApplied then { b with applied := b.applied ++ [cand] }
  else { b with buffered := b.buffered ++ [cand] }

/-- Modelled from the spec, for comparison with handleIceCandidate: the flush
operation of the ICE Candidate Buffer applies all buffered candidates in
receipt order once the remote description becomes available. -/
def specFlush (b : SpecCandidateBuffer) : SpecCandidateBuffer :=
  { b with
    remoteDescApplied := true, applied := b.applied ++ b.buffered, buffered := [] }

/-! Concrete fixtures used by the closed theorems and witnesses below. -/

/-- A store holding an eleven-minute-old active room with two joined
participants and activity one second old. -/
def dbAgedBusy : DB :=
  { rooms := [{ id := 1, password := none, status := RoomStatus.active,
                created_at := 0, ended_at := none }],
    participants :=
      [{ room_id := 1, user_id := 7, pstatus := PStatus.joined, joined_at := 0 },
       { room_id := 1, user_id := 8, pstatus := PStatus.joined, joined_at := 0 }],
    activity := [{ room_id := 1, last_active := 659000, participant_count := 2 }] }

/-- A store holding a six-minute-old waiting room with a single joined
participant and no activity since creation. -/
def dbYoungIdle : DB :=
  { rooms := [{ id := 1, password := none, status := RoomStatus.waiting,
                created_at := 0, ended_at := none }],
    participants :=
      [{ room_id := 1, user_id := 7, pstatus := PStatus.joined, joined_at := 0 }],
    activity := [{ room_id := 1, last_active := 0, participant_count := 1 }] }

/-- A store holding an ended room in which user 7 still has an invited
participant row. -/
def dbEndedRoom : DB :=
  { rooms := [{ id := 1, password := none, status := RoomStatus.ended,
                created_at := 0, ended_at := some 600000 }],
    participants :=
      [{ room_id := 1, user_id := 7, pstatus := PStatus.invited, joined_at := 0 }],
    activity := [{ room_id := 1, last_active := 0, participant_count := 1 }] }

/-- A store holding a password-protected waiting room. -/
def dbPasswordRoom : DB :=
  { rooms := [{ id := 1, password := some "s3cret", status := RoomStatus.waiting,
                created_at := 0, ended_at := none }],
    participants :=
      [{ room_id := 1, user_id := 7, pstatus := PStatus.invited, joined_at := 0 }],
    activity := [{ room_id := 1, last_active := 0, participant_count := 1 }] }

/-- The room row of dbPasswordRoom. -/
def passwordRoom : Room :=
  { id := 1, password := some "s3cret", status := RoomStatus.waiting,
    created_at := 0, ended_at := none }

/-- A client with no pairing and no peer connection. -/
def emptyClientState : ClientState :=
  { partnerId := none, pc := none, isMatching := false, isChatting := false,
    messages := [] }

/-- A client chatting with partner p over a freshly created peer connection
whose remote description is not yet set. -/
def stNegotiating : ClientState :=
  { partnerId := some "p", pc := some newRTCConn, isMatching := false,
    isChatting := true, messages := [] }

/-- An open connection with both descriptions set and no candidates applied. -/
def connReady : RTCConn :=
  { localDescSet := true, remoteDescSet := true, appliedCandidates := [],
    closed := false }

/-- A client chatting with partner p over a connection with both descriptions
set. -/
def stConnected : ClientState :=
  { partnerId := some "p", pc := some connReady, isMatching := false,
    isChatting := true, messages := [] }

/-! Theorems settling the claims. -/

/-- Claim C1: the claim says the sweep ends every waiting or active room whose
age since creation is at least ten minutes, regardless of participant count or
last activity.  The code disagrees: on a store with an eleven-minute-old
active room holding two joined participants, cleanupExpiredRooms leaves the
store untouched and the room stays active, even though the ten-minute age
predicate holds and RoomCard getExpirationStatus labels exactly this room as
expired by age. -/
theorem c1_sweep_skips_aged_room_with_two_participants :
    cleanupExpiredRooms dbAgedBusy 660000 = dbAgedBusy ∧
    roomStatusById (cleanupExpiredRooms dbAgedBusy 660000) 1 = some RoomStatus.active ∧
    10 * 60000 ≤ 660000 - 0 ∧
    getExpirationStatus 660000 0 (some 659000) 2 = some ExpirationLabel.expiredAge := by
  decide

/-- Claim C2: the claim says a waiting or active room with at most one
participant and at least five idle minutes is ended by the sweep even when
younger than ten minutes.  The code disagrees: the sweep query only fetches
rooms strictly older than ten minutes, so on a store with a six-minute-old
waiting room that has one joined participant and has been idle since creation,
cleanupExpiredRooms leaves the store untouched, even though RoomCard
getExpirationStatus labels exactly this room as expired by inactivity. -/
theorem c2_sweep_skips_young_idle_room :
    cleanupExpiredRooms dbYoungIdle 360000 = dbYoungIdle ∧
    roomStatusById (cleanupExpiredRooms dbYoungIdle 360000) 1 = some RoomStatus.waiting ∧
    getExpirationStatus 360000 0 (some 0) 1 = some ExpirationLabel.expiredInactive := by
  decide

/-- Claim C6: the claim says no operation ever moves a room status backward,
in particular never from ended back to active.  The video-chat page joinRoom
violates this: on a store holding an ended room in which the caller has a
participant row, the page join updates the room unconditionally to active,
moving its status backward from ended. -/
theorem c6_page_join_revives_ended_room :
    roomStatusById dbEndedRoom 1 = some RoomStatus.ended ∧
    (pageJoinRoom dbEndedRoom 1 7 700000).toOption.map (fun db => roomStatusById db 1) =
      some (some RoomStatus.active) := by
  decide

/-- Claim C8, counterexample: on a store holding an ended room where user 7
has an invited participant row, joinRoom succeeds (it performs no status
check, so it does not fail with RoomEnded) and marks the participant row of
the caller as joined, contradicting the claim as stated. -/
theorem c8_join_room_joins_ended_room :
    roomStatusById dbEndedRoom 1 = some RoomStatus.ended ∧
    (joinRoom dbEndedRoom 1 7 none).1 = JoinResult.ok 1 ∧
    participantStatus (joinRoom dbEndedRoom 1 7 none).2 1 7 = some PStatus.joined := by
  decide

/-- Claim C4, counterexample: the client is paired with partner p over a fresh
connection, and an offer relayed from q (not the current partner) arrives.
The handler does not discard it: it applies the remote description, answers,
and emits the answer to q, mutating the session state. -/
theorem c4_foreign_offer_applied :
    stNegotiating.partnerId = some "p" ∧ "q" ≠ "p" ∧
    handleOffer stNegotiating "q" =
      Except.ok
        ({ stNegotiating with
            pc := some { newRTCConn with remoteDescSet := true, localDescSet := true } },
          [OutMsg.answer "q"]) ∧
    ({ stNegotiating with
        pc := some { newRTCConn with remoteDescSet := true, localDescSet := true } } : ClientState)
      ≠ stNegotiating := by
  decide

/-- Claim C5, counterexample: a candidate that arrives before the remote
description is set is not appended to any buffer by handleIceCandidate; the
direct addIceCandidate call rejects and the candidate is lost.  The buffer
the specification describes (specAddCandidate / specFlush) would instead
retain candidate 42 and apply it on flush. -/
theorem c5_early_candidate_lost_not_buffered :
    (stNegotiating.pc.map fun c => c.remoteDescSet) = some false ∧
    handleIceCandidate stNegotiating 42 = Except.error NegotiationError.invalidState ∧
    specFlush (specAddCandidate
        { remoteDescApplied := false, buffered := [], applied := [] } 42) =
      { remoteDescApplied := true, buffered := [], applied := [42] } := by
  decide

/-- Claim C9, counterexample: a candidate arriving while the transport is not
ready (remote description not yet set) makes addIceCandidate reject, and
handleIceCandidate propagates the rejection instead of catching it; the
session state it was given is still a chatting session holding the
half-initialized connection, not Idle. -/
theorem c9_candidate_error_not_caught :
    handleIceCandidate stNegotiating 7 = Except.error NegotiationError.invalidState ∧
    stNegotiating.isChatting = true ∧
    stNegotiating.pc ≠ none := by
  decide

/-- Claim C3: for every matched pair of distinct connection identifiers,
exactly the side whose identifier is lexicographically smaller creates and
sends the offer, the chosen initiator is the minimum of the two identifiers
regardless of the order in which the two sides are considered, and
handleMatchFound emits the offer exactly on the initiating side. -/
theorem c3_initiator_lexicographic (a b : String) (st₁ st₂ : ClientState)
    (hne : a ≠ b) :
    offerInitiator a b = some (min a b) ∧
    offerInitiator b a = some (min a b) ∧
    ((handleMatchFound a st₁ b).2 = [OutMsg.offer b] ↔ a < b) ∧
    ((handleMatchFound b st₂ a).2 = [OutMsg.offer a] ↔ b < a) ∧
    ¬(sendsOffer a b = true ∧ sendsOffer b a = true) := by
  rcases lt_trichotomy a b with h | h | h
  · refine ⟨?_, ?_, ?_, ?_, ?_⟩ <;>
      simp [offerInitiator, sendsOffer, handleMatchFound, h, lt_asymm h,
        min_eq_left h.le]
  · exact absurd h hne
  · refine ⟨?_, ?_, ?_, ?_, ?_⟩ <;>
      simp [offerInitiator, sendsOffer, handleMatchFound, h, lt_asymm h,
        min_eq_right h.le]

/-- Claim C3, witness: identifiers abc and xyz always yield abc as offer
initiator, in both match orders. -/
theorem c3_witness :
    offerInitiator "abc" "xyz" = some (min "abc" "xyz") ∧
    offerInitiator "xyz" "abc" = some (min "abc" "xyz") ∧
    ((handleMatchFound "abc" emptyClientState "xyz").2 = [OutMsg.offer "xyz"] ↔
      "abc" < "xyz") ∧
    ((handleMatchFound "xyz" emptyClientState "abc").2 = [OutMsg.offer "abc"] ↔
      "xyz" < "abc") ∧
    ¬(sendsOffer "abc" "xyz" = true ∧ sendsOffer "xyz" "abc" = true) :=
  c3_initiator_lexicographic "abc" "xyz" emptyClientState emptyClientState (by decide)

/-- Claim C4, amended: the handlers perform no sender verification.  Whenever
a peer connection is present and open, an offer from any sender is applied to
it and answered back to that sender, whatever the stored partner id is; and
skipPartner does not clear peerConnectionRef, so stale old-pairing messages
keep being applied after a skip. -/
theorem c4_no_sender_verification (st : ClientState) (fromId : String)
    (conn : RTCConn) (hpc : st.pc = some conn) (hclosed : conn.closed = false) :
    handleOffer st fromId =
      Except.ok
        ({ st with pc := some { conn with remoteDescSet := true, localDescSet := true } },
          [OutMsg.answer fromId]) ∧
    (skipPartner st).1.pc = st.pc := by
  refine ⟨?_, rfl⟩
  unfold handleOffer
  rw [hpc]
  simp [setRemoteDescription, createAnswer, setLocalDescription, hclosed]

/-- Claim C4, witness: instantiated at the negotiating client and sender q. -/
theorem c4_witness :
    handleOffer stNegotiating "q" =
      Except.ok
        ({ stNegotiating with
            pc := some { newRTCConn with remoteDescSet := true, localDescSet := true } },
          [OutMsg.answer "q"]) ∧
    (skipPartner stNegotiating).1.pc = stNegotiating.pc :=
  c4_no_sender_verification stNegotiating "q" newRTCConn rfl rfl

/-- Claim C5, amended: there is no candidate buffer; a candidate received on
an open connection whose remote description is already set is applied
immediately, appended in receipt order to the applied sequence. -/
theorem c5_immediate_apply_when_remote_set (st : ClientState) (conn : RTCConn)
    (cand : Nat) (hpc : st.pc = some conn) (hclosed : conn.closed = false)
    (hremote : conn.remoteDescSet = true) :
    handleIceCandidate st cand =
      Except.ok
        { st with
          pc := some { conn with appliedCandidates := conn.appliedCandidates ++ [cand] } } := by
  unfold handleIceCandidate
  rw [hpc]
  simp [addIceCandidate, hclosed, hremote]

/-- Claim C5, witness: instantiated at the connected client and candidate 42. -/
theorem c5_witness :
    handleIceCandidate stConnected 42 =
      Except.ok
        { stConnected with
          pc := some { connReady with appliedCandidates := connReady.appliedCandidates ++ [42] } } :=
  c5_immediate_apply_when_remote_set stConnected connReady 42 rfl rfl rfl

/-- Claim C7: joinRoom called with an incorrect password for a
password-protected room returns wrongPassword and leaves the store, and with
it every RoomParticipant and RoomActivity row, exactly as it was: the
password check throws before any write is issued. -/
theorem c7_wrong_password_leaves_store_unchanged (db : DB) (roomId userId : Nat)
    (given : Option String) (room : Room) (pw : String)
    (hfind : findRoomById db roomId = some room)
    (hpw : room.password = some pw) (hne : pw ≠ "") (hgiven : given ≠ some pw) :
    joinRoom db roomId userId given = (JoinResult.wrongPassword, db) := by
  have hb : passwordBlocks room.password given = true := by
    rw [hpw]
    simp [passwordBlocks, hne, hgiven]
  unfold joinRoom
  rw [hfind]
  simp [hb]

/-- Claim C7, witness: instantiated at the password-protected room with a
wrong supplied password. -/
theorem c7_witness :
    joinRoom dbPasswordRoom 1 7 (some "wrong") = (JoinResult.wrongPassword, dbPasswordRoom) :=
  c7_wrong_password_leaves_store_unchanged dbPasswordRoom 1 7 (some "wrong")
    passwordRoom "s3cret" (by decide) rfl (by decide) (by decide)

/-- Claim C8, amended: the ended-room rejection lives one layer up, in the
RoomCard click handler: for a signed-in user, handleJoin on a room with
status ended returns blockedEnded before joinRoom is ever called, for every
password configuration and input. -/
theorem c8_handle_join_blocks_ended (roomPw : Option String) (pwInput : String) :
    handleJoin true RoomStatus.ended roomPw pwInput = HandleJoinAction.blockedEnded := by
  simp [handleJoin]

/-- Claim C8, witness: instantiated at a password-protected configuration. -/
theorem c8_witness :
    handleJoin true RoomStatus.ended (some "s3cret") "" = HandleJoinAction.blockedEnded :=
  c8_handle_join_blocks_ended (some "s3cret") ""

/-- Claim C9, amended: negotiation errors in the candidate handler are not
caught: whenever the connection is open but its remote description is not yet
set, the addIceCandidate rejection propagates out of handleIceCandidate, and
no transition to Idle happens. -/
theorem c9_negotiation_error_propagates (st : ClientState) (conn : RTCConn)
    (cand : Nat) (hpc : st.pc = some conn) (hclosed : conn.closed = false)
    (hremote : conn.remoteDescSet = false) :
    handleIceCandidate st cand = Except.error NegotiationError.invalidState := by
  unfold handleIceCandidate
  rw [hpc]
  simp [addIceCandidate, hclosed, hremote]

/-- Claim C9, witness: instantiated at the negotiating client and
candidate 7. -/
theorem c9_witness :
    handleIceCandidate stNegotiating 7 = Except.error NegotiationError.invalidState :=
  c9_negotiation_error_propagates stNegotiating newRTCConn 7 rfl rfl rfl

/-- Claim C10: an offer arriving when peerConnectionRef is null is ignored
silently: the handler succeeds without error, the client state (including the
absent peer connection) is unchanged, and no answer is emitted, so this offer
cannot advance the pairing. -/
theorem c10_offer_without_connection_is_silent_noop (st : ClientState)
    (fromId : String) (hpc : st.pc = none) :
    handleOffer st fromId = Except.ok (st, []) := by
  unfold handleOffer
  rw [hpc]

/-- Claim C10, witness: instantiated at the idle client. -/
theorem c10_witness :
    handleOffer emptyClientState "z" = Except.ok (emptyClientState, []) :=
  c10_offer_without_connection_is_silent_noop emptyClientState "z" rfl

end NextMeet
